import Mathlib

/-
Shallow embedding of the fractal-amadeus persona chat client.

Source files embedded here:
  - fractal_amadeus/core/__init__.py : load_preprompt, get_other_name_for_okabe
  - tests/functional_tests/test_basic_usage_scenarios.py :
      module-level load_preprompt, API_URL, HEADERS, class Amadeus
      (methods __init__, test, raise_for_some_elements_not_returned)
  - tests/unit_tests/test_okabe_message_flow.py : class DummyAmadeus

Python strings are modelled as Lean `String`; the Python substring test
`needle in hay` is exact case-sensitive containment, modelled as list-infix
of the character data.  icontract decorators are modelled as explicit
checks: a violated `require` or `ensure` turns into an error value of the
`Except` result.  When several `require` (or `ensure`) decorators are
stacked, icontract appends them innermost-first, so the decorator written
closest to the `def` is checked first; the embeddings below follow that
order.  The filesystem and the network are passed in explicitly: a load
call receives the current content of docs/latest_preprompt.md as an
`Option String` (none = file missing), and `Amadeus.test` receives the
outcome of the one `requests.post` call as a `Transport` value.
-/

/-- Python `needle in hay` on strings: exact, case-sensitive substring
containment. -/
def strContains (hay needle : String) : Bool :=
  decide (needle.data <:+: hay.data)

/-- Errors surfaced by the embedded operations.  `preconditionError` and
`postconditionError` are icontract ViolationError raised by a `require`
resp. `ensure` decorator; `notFound` is Python FileNotFoundError;
`transportError` is requests.RequestException (with the HTTP status when it
came from `raise_for_status`, none when the POST itself failed);
`parseError` / `indexError` are the failures of `response.json()` resp.
`result["content"][0]`; `validationError` is the AssertionError of
`raise_for_some_elements_not_returned`, carrying the missing elements;
`sysExit` is `sys.exit(code)`. -/
inductive AmadeusError where
  | preconditionError (msg : String)
  | postconditionError (msg : String)
  | notFound
  | transportError (status : Option Nat)
  | parseError
  | indexError
  | validationError (missing : List String)
  | sysExit (code : Nat)
deriving DecidableEq

/-- One content block of the API response (TypedDict MessageContent). -/
structure MessageContent where
  type : String
  text : String
deriving DecidableEq

/-- Parsed JSON body of a successful call (TypedDict ClaudeAPIResponse). -/
structure ClaudeAPIResponse where
  id : String
  type : String
  role : String
  content : List MessageContent
  model : String
  stop_reason : String
  stop_sequence : Option String
  usage : List (String × Nat)
deriving DecidableEq

/-- One message of the outgoing payload. -/
structure ChatMessage where
  role : String
  content : String
deriving DecidableEq

/-- The outgoing JSON payload built by `Amadeus.test`.  The two sampling
floats are exact decimal literals in the source (0 and 0.9), modelled as
rationals. -/
structure ChatRequest where
  model : String
  temperature : ℚ
  top_p : ℚ
  stop_sequences : List String
  max_tokens : Nat
  messages : List ChatMessage
deriving DecidableEq

/-- The HTTP response handed back by the transport: its status code and its
body as parsed by `response.json()` followed by the `content` lookup
(`none` when the body does not parse into the expected shape). -/
structure HttpResponse where
  status : Nat
  body : Option ClaudeAPIResponse
deriving DecidableEq

/-- Outcome of the single `requests.post` call inside `Amadeus.test`:
either the POST raised a connection-level RequestException, or an HTTP
response came back. -/
inductive Transport where
  | exn
  | response (resp : HttpResponse)
deriving DecidableEq

/-- fractal_amadeus/core/__init__.py `load_preprompt`: reads
docs/latest_preprompt.md and returns its content.  A missing file raises
FileNotFoundError.  The icontract `ensure` decorators check the result
after the body, innermost decorator first: the "Kurisu" marker check, then
the length bounds 10 ≤ len ≤ 100000. -/
def load_preprompt (fs : Option String) : Except AmadeusError String :=
  match fs with
  | none => Except.error AmadeusError.notFound
  | some content =>
      if strContains content "Kurisu" then
        if 10 ≤ content.length ∧ content.length ≤ 100000 then
          Except.ok content
        else
          Except.error (AmadeusError.postconditionError
            "Preprompt length must be between 10 and 100,000 characters")
      else
        Except.error (AmadeusError.postconditionError
          "Preprompt must contain Kurisu character information")

/-- tests/functional_tests/test_basic_usage_scenarios.py module-level
`load_preprompt` (the one `Amadeus.test` calls): reads the same file, but a
missing file is caught and turned into `sys.exit(1)`.  Its `ensure`
decorators (innermost first): the "Kurisu" marker, then nonemptiness. -/
def ft_load_preprompt (fs : Option String) : Except AmadeusError String :=
  match fs with
  | none => Except.error (AmadeusError.sysExit 1)
  | some content =>
      if strContains content "Kurisu" then
        if content.length > 0 then
          Except.ok content
        else
          Except.error (AmadeusError.postconditionError
            "Preprompt must not be empty")
      else
        Except.error (AmadeusError.postconditionError
          "Preprompt must contain Kurisu character information")

/-- fractal_amadeus/core/__init__.py `get_other_name_for_okabe`. -/
def get_other_name_for_okabe : String :=
  "Hououin Kyouma"

/-- Module constant API_URL of test_basic_usage_scenarios.py. -/
def API_URL : String :=
  "https://api.anthropic.com/v1/messages"

/-- Module constant HEADERS of test_basic_usage_scenarios.py; the api key
comes from the process environment. -/
def HEADERS (apiKey : String) : List (String × String) :=
  [("Content-Type", "application/json"),
   ("anthropic-version", "2023-06-01"),
   ("x-api-key", apiKey)]

/-- The instance fields of class Amadeus.  The five `latest_*` fields are
the ClientState of the design; `http_session` is the identity of the
`requests.Session` the constructor received and stored (all fields set to
None in `__init__`, the session to the supplied one). -/
structure ClientState where
  latest_request_api_url : Option String
  latest_request_headers : Option (List (String × String))
  latest_request_json : Option ChatRequest
  latest_message_content : Option String
  latest_response : Option HttpResponse
  http_session : Nat
deriving DecidableEq

/-- Which network channel a POST went out on: `requests.post` opens a fresh
library-internal session for the one call; `suppliedSession` would be a
call through the stored `self.http_session`. -/
inductive SessionUse where
  | moduleLevelFresh
  | suppliedSession
deriving DecidableEq

deriving instance DecidableEq for Except

/-- Everything one call of `Amadeus.test` produces: its return value or the
exception it raised, the instance fields after the call (Python mutations
to `self` persist even when an exception propagates), and the channel of
the outbound network call (`none` if control never reached the POST). -/
structure TestOutcome where
  result : Except AmadeusError String
  state : ClientState
  networkCall : Option SessionUse
deriving DecidableEq

/-- The payload dict literal of `Amadeus.test`: fixed model and sampling
constants, and one user message whose content is
`f"\x7bpreprompt\x7d\n\n\x7btext\x7d"`. -/
def buildPayload (preprompt text : String) : ChatRequest :=
  { model := "claude-3-haiku-20240307"
    temperature := 0
    top_p := (9 : ℚ) / 10
    stop_sequences := ["User:"]
    max_tokens := 1000
    messages := [{ role := "user", content := preprompt ++ "\n\n" ++ text }] }

/-- The three assignments `Amadeus.test` performs right before the network
call: `self.latest_request_api_url = API_URL`,
`self.latest_request_headers = HEADERS`,
`self.latest_request_json = payload`. -/
def recordRequest (apiKey : String) (payload : ChatRequest)
    (st : ClientState) : ClientState :=
  { st with latest_request_api_url := some API_URL
            latest_request_headers := some (HEADERS apiKey)
            latest_request_json := some payload }

/-- `Amadeus.test`, step by step from the source:
1. icontract `require` on `text` (truthiness: nonempty) or ViolationError;
2. `preprompt = load_preprompt()` — the module-level loader of the same
   file, called afresh inside the method body on every call;
3. build `payload`;
4. assign `latest_request_api_url`, `latest_request_headers`,
   `latest_request_json` (before the network call);
5. `requests.post(API_URL, ...)` — note: the module-level `requests.post`,
   not `self.http_session.post`, so the library opens a fresh one-shot
   session; a RequestException propagates;
6. `response.raise_for_status()` raises for status ≥ 400, before
   `latest_response` is assigned;
7. `self.latest_response = response`;
8. `response.json()` then `result["content"][0]["text"]` (parse / index
   failures propagate), assigned to `latest_message_content`;
9. icontract `ensure` that the result is truthy (nonempty) or
   ViolationError; otherwise the content is returned. -/
def AmadeusTest (apiKey : String) (fs : Option String) (tr : Transport)
    (st : ClientState) (text : String) : TestOutcome :=
  if text = "" then
    ⟨Except.error (AmadeusError.preconditionError "Input text cannot be empty"),
     st, none⟩
  else
    match ft_load_preprompt fs with
    | Except.error e => ⟨Except.error e, st, none⟩
    | Except.ok preprompt =>
        let payload := buildPayload preprompt text
        let st1 : ClientState := recordRequest apiKey payload st
        match tr with
        | Transport.exn =>
            ⟨Except.error (AmadeusError.transportError none), st1,
             some SessionUse.moduleLevelFresh⟩
        | Transport.response resp =>
            if 400 ≤ resp.status then
              ⟨Except.error (AmadeusError.transportError (some resp.status)), st1,
               some SessionUse.moduleLevelFresh⟩
            else
              let st2 : ClientState := { st1 with latest_response := some resp }
              match resp.body with
              | none =>
                  ⟨Except.error AmadeusError.parseError, st2,
                   some SessionUse.moduleLevelFresh⟩
              | some parsed =>
                  match parsed.content with
                  | [] =>
                      ⟨Except.error AmadeusError.indexError, st2,
                       some SessionUse.moduleLevelFresh⟩
                  | block :: _ =>
                      let st3 : ClientState :=
                        { st2 with latest_message_content := some block.text }
                      if block.text = "" then
                        ⟨Except.error (AmadeusError.postconditionError
                           "Response cannot be empty"), st3,
                         some SessionUse.moduleLevelFresh⟩
                      else
                        ⟨Except.ok block.text, st3,
                         some SessionUse.moduleLevelFresh⟩

/-- The list comprehension of `raise_for_some_elements_not_returned`:
`[elem for elem in expected_elements if elem not in latest_message_content]`. -/
def missing_elements (content : String) (expected_elements : List String) :
    List String :=
  expected_elements.filter (fun elem => ! strContains content elem)

/-- `Amadeus.raise_for_some_elements_not_returned`.  icontract checks the
stacked `require` decorators innermost-first: the nonempty-list check, then
the content-availability check; then the body filters the missing elements
and asserts the list is empty (the AssertionError carries the missing
list). -/
def raise_for_some_elements_not_returned (latest_message_content : Option String)
    (expected_elements : List String) : Except AmadeusError Unit :=
  if expected_elements.length = 0 then
    Except.error (AmadeusError.preconditionError
      "Expected elements list cannot be empty")
  else
    match latest_message_content with
    | none =>
        Except.error (AmadeusError.preconditionError
          "No message content available. Run test() first.")
    | some content =>
        if missing_elements content expected_elements = [] then
          Except.ok ()
        else
          Except.error (AmadeusError.validationError
            (missing_elements content expected_elements))

/-- `raise_for_some_elements_not_returned` as a method on the instance
state: the body contains no assignment to `self`, so the state comes back
as it went in. -/
def checkContains (st : ClientState) (expected_elements : List String) :
    Except AmadeusError Unit × ClientState :=
  (raise_for_some_elements_not_returned st.latest_message_content
     expected_elements, st)

/-- DummyAmadeus.FIXED_RESPONSE of test_okabe_message_flow.py. -/
def FIXED_RESPONSE : String :=
  "Does this help provide some healthier meal ideas"

/-- Instance fields of class DummyAmadeus; `__init__` sets
`latest_request_api_url = None` and `latest_message_content =
FIXED_RESPONSE`. -/
structure DummyAmadeus where
  latest_request_api_url : Option String
  latest_message_content : String
deriving DecidableEq

/-- `DummyAmadeus.__init__`. -/
def DummyAmadeus.init : DummyAmadeus :=
  { latest_request_api_url := none, latest_message_content := FIXED_RESPONSE }

/-- `DummyAmadeus.test`: body is `return self.FIXED_RESPONSE`; nothing on
`self` is assigned, so the instance comes back unchanged. -/
def DummyAmadeus.test (d : DummyAmadeus) (_text : String) :
    String × DummyAmadeus :=
  (FIXED_RESPONSE, d)

/-- `Amadeus.__init__`: all five `latest_*` fields start as None and the
externally supplied session is stored. -/
def AmadeusInit (http_session : Nat) : ClientState :=
  { latest_request_api_url := none
    latest_request_headers := none
    latest_request_json := none
    latest_message_content := none
    latest_response := none
    http_session := http_session }

/-- A concrete valid persona-file content, used to evaluate the theorems on
explicit inputs. -/
def personaOK : String :=
  "Kurisu, the genius girl."

/-- A concrete successful HTTP response, shaped like the stub of the
end-to-end scenarios: one text content block holding the fixed reply. -/
def okResp : HttpResponse :=
  { status := 200
    body := some
      { id := "msg_01"
        type := "message"
        role := "assistant"
        content := [{ type := "text", text := FIXED_RESPONSE }]
        model := "claude-3-haiku-20240307"
        stop_reason := "end_turn"
        stop_sequence := none
        usage := [("input_tokens", 10), ("output_tokens", 12)] } }

/-- C3: on every successful call to `load_preprompt` (the core loader), the
returned string has length between 10 and 100,000 characters inclusive and
contains the literal substring "Kurisu".  The loader is stateless and
re-reads its source on every call, so the theorem quantifies over an
arbitrary per-call filesystem content: the property holds on every call,
not just the first. -/
theorem C3_load_preprompt_postconditions (fs : Option String) (s : String)
    (h : load_preprompt fs = Except.ok s) :
    10 ≤ s.length ∧ s.length ≤ 100000 ∧ strContains s "Kurisu" = true := by
  cases fs with
  | none => simp [load_preprompt] at h
  | some content =>
      simp only [load_preprompt] at h
      split at h
      · split at h
        · rename_i hk hlen
          injection h with h1
          subst h1
          exact ⟨hlen.1, hlen.2, hk⟩
        · exact Except.noConfusion h
      · exact Except.noConfusion h

/-- Witness for C3 at a concrete valid persona file. -/
theorem C3_witness :
    load_preprompt (some personaOK) = Except.ok personaOK ∧
    (10 ≤ personaOK.length ∧ personaOK.length ≤ 100000 ∧
      strContains personaOK "Kurisu" = true) :=
  ⟨by decide,
   C3_load_preprompt_postconditions (some personaOK) personaOK (by decide)⟩

/-- C8: pointing `load_preprompt` (the core loader) at a missing persona
source fails with FileNotFoundError, the NotFound-style error, surfaced to
the caller as a catchable error value, and no content at all — in
particular no partial content — is returned. -/
theorem C8_load_preprompt_missing_file :
    load_preprompt none = Except.error AmadeusError.notFound ∧
    ∀ s : String, load_preprompt none ≠ Except.ok s := by
  refine ⟨rfl, ?_⟩
  intro s h
  simp [load_preprompt] at h

/-- Witness for C8 evaluated at a concrete string. -/
theorem C8_witness :
    load_preprompt none = Except.error AmadeusError.notFound ∧
    load_preprompt none ≠ Except.ok personaOK :=
  ⟨C8_load_preprompt_missing_file.1,
   C8_load_preprompt_missing_file.2 personaOK⟩

/-- C9: `raise_for_some_elements_not_returned` is idempotent and
side-effect free: invoked on any instance state with any expectation list,
it leaves the state exactly as it was, and a second immediately following
call returns the same outcome (the same success or the same failure) and
again leaves the state unchanged. -/
theorem C9_checkContains_idempotent_and_pure (st : ClientState)
    (e : List String) :
    (checkContains st e).2 = st ∧
    (checkContains ((checkContains st e).2) e).1 = (checkContains st e).1 ∧
    (checkContains ((checkContains st e).2) e).2 = st :=
  ⟨rfl, rfl, rfl⟩

/-- Witness for C9 at a concrete state and expectation list. -/
theorem C9_witness :
    (checkContains (AmadeusInit 0) ["x"]).2 = AmadeusInit 0 ∧
    (checkContains ((checkContains (AmadeusInit 0) ["x"]).2) ["x"]).1 =
      (checkContains (AmadeusInit 0) ["x"]).1 ∧
    (checkContains ((checkContains (AmadeusInit 0) ["x"]).2) ["x"]).2 =
      AmadeusInit 0 :=
  C9_checkContains_idempotent_and_pure (AmadeusInit 0) ["x"]

/-- C10: `DummyAmadeus.test` is independent of its input: any two input
texts produce the same fixed reply, which is the literal
"Does this help provide some healthier meal ideas", and the call leaves
both instance fields (`latest_message_content`,
`latest_request_api_url`) unchanged. -/
theorem C10_dummy_test_input_independent (d : DummyAmadeus)
    (t1 t2 : String) :
    (DummyAmadeus.test d t1).1 =
      "Does this help provide some healthier meal ideas" ∧
    (DummyAmadeus.test d t1).1 = (DummyAmadeus.test d t2).1 ∧
    (DummyAmadeus.test d t1).2.latest_message_content =
      d.latest_message_content ∧
    (DummyAmadeus.test d t1).2.latest_request_api_url =
      d.latest_request_api_url :=
  ⟨rfl, rfl, rfl, rfl⟩

/-- Witness for C10 at two concrete distinct inputs. -/
theorem C10_witness :
    (DummyAmadeus.test DummyAmadeus.init "hello").1 =
      "Does this help provide some healthier meal ideas" ∧
    (DummyAmadeus.test DummyAmadeus.init "hello").1 =
      (DummyAmadeus.test DummyAmadeus.init "other").1 ∧
    (DummyAmadeus.test DummyAmadeus.init "hello").2.latest_message_content =
      DummyAmadeus.init.latest_message_content ∧
    (DummyAmadeus.test DummyAmadeus.init "hello").2.latest_request_api_url =
      DummyAmadeus.init.latest_request_api_url :=
  C10_dummy_test_input_independent DummyAmadeus.init "hello" "other"

/-- C1: for every stored response text `s` and nonempty expectation list
`e`, `raise_for_some_elements_not_returned` succeeds exactly when every
element of `e` is an exact case-sensitive substring of `s`; otherwise it
fails with the validation failure whose carried list is precisely the
elements of `e` not occurring in `s`, in their original relative order
(the order- and multiplicity-preserving filter of `e`). -/
theorem C1_checkContains_exact (s : String) (e : List String) (he : e ≠ []) :
    (raise_for_some_elements_not_returned (some s) e = Except.ok () ↔
       ∀ x ∈ e, strContains s x = true) ∧
    (∀ m, raise_for_some_elements_not_returned (some s) e =
        Except.error (AmadeusError.validationError m) →
       m = e.filter (fun x => ! strContains s x)) ∧
    (raise_for_some_elements_not_returned (some s) e = Except.ok () ∨
     raise_for_some_elements_not_returned (some s) e =
       Except.error (AmadeusError.validationError
         (e.filter (fun x => ! strContains s x)))) := by
  have hlen : ¬ e.length = 0 := by simpa [List.length_eq_zero] using he
  have key : raise_for_some_elements_not_returned (some s) e =
      if missing_elements s e = [] then Except.ok ()
      else Except.error (AmadeusError.validationError (missing_elements s e)) := by
    unfold raise_for_some_elements_not_returned
    rw [if_neg hlen]
  rw [key]
  by_cases hm : missing_elements s e = []
  · rw [if_pos hm]
    have hall : ∀ x ∈ e, strContains s x = true := by
      intro x hx
      have h2 := List.filter_eq_nil_iff.mp hm x hx
      simpa using h2
    refine ⟨iff_of_true rfl hall, ?_, Or.inl rfl⟩
    intro m hmm
    exact absurd hmm (fun hh => Except.noConfusion hh)
  · rw [if_neg hm]
    have hnall : ¬ ∀ x ∈ e, strContains s x = true := by
      intro hall
      exact hm (List.filter_eq_nil_iff.mpr (fun a ha => by simp [hall a ha]))
    refine ⟨iff_of_false (fun hh => Except.noConfusion hh) hnall, ?_, Or.inr rfl⟩
    intro m hmm
    injection hmm with h1
    injection h1 with h2
    exact h2.symm

/-- Witness for C1 at a concrete stored text and expectation list: "a" is
a substring of "ab", "z" is not. -/
theorem C1_witness :
    ((["a", "z"] : List String) ≠ []) ∧
    ((raise_for_some_elements_not_returned (some "ab") ["a", "z"] =
        Except.ok () ↔
       ∀ x ∈ (["a", "z"] : List String), strContains "ab" x = true) ∧
     (∀ m, raise_for_some_elements_not_returned (some "ab") ["a", "z"] =
         Except.error (AmadeusError.validationError m) →
        m = (["a", "z"] : List String).filter (fun x => ! strContains "ab" x)) ∧
     (raise_for_some_elements_not_returned (some "ab") ["a", "z"] =
        Except.ok () ∨
      raise_for_some_elements_not_returned (some "ab") ["a", "z"] =
        Except.error (AmadeusError.validationError
          ((["a", "z"] : List String).filter
            (fun x => ! strContains "ab" x))))) :=
  ⟨by decide, C1_checkContains_exact "ab" ["a", "z"] (by decide)⟩

/-- C5: `raise_for_some_elements_not_returned` fails with an icontract
precondition violation (never succeeds vacuously) whenever the expectation
list is empty, and whenever it is invoked before any `test` call has
recorded a response text; in the latter case (with a nonempty list, so the
content check is the one that fires) the message is the no-content one. -/
theorem C5_checkContains_preconditions (content : Option String)
    (e : List String) :
    (e = [] → ∃ msg, raise_for_some_elements_not_returned content e =
        Except.error (AmadeusError.preconditionError msg)) ∧
    (content = none → ∃ msg, raise_for_some_elements_not_returned content e =
        Except.error (AmadeusError.preconditionError msg)) ∧
    (content = none → e ≠ [] →
      raise_for_some_elements_not_returned content e =
        Except.error (AmadeusError.preconditionError
          "No message content available. Run test() first.")) := by
  refine ⟨?_, ?_, ?_⟩
  · rintro rfl
    exact ⟨_, rfl⟩
  · rintro rfl
    by_cases hlen : e.length = 0
    · exact ⟨_, by rw [raise_for_some_elements_not_returned, if_pos hlen]⟩
    · exact ⟨_, by rw [raise_for_some_elements_not_returned, if_neg hlen]⟩
  · rintro rfl hne
    have hlen : ¬ e.length = 0 := by simpa [List.length_eq_zero] using hne
    rw [raise_for_some_elements_not_returned, if_neg hlen]

/-- Witness for C5: invoked before any response was recorded, with a
nonempty expectation list. -/
theorem C5_witness :
    raise_for_some_elements_not_returned none ["x"] =
      Except.error (AmadeusError.preconditionError
        "No message content available. Run test() first.") :=
  (C5_checkContains_preconditions none ["x"]).2.2 rfl (by decide)

/-- Run of `Amadeus.test` on empty input text: the icontract precondition
fires before the loader and the network. -/
theorem AmadeusTest_empty_text (apiKey : String) (fs : Option String)
    (tr : Transport) (st : ClientState) :
    AmadeusTest apiKey fs tr st "" =
      ⟨Except.error (AmadeusError.preconditionError
         "Input text cannot be empty"), st, none⟩ := rfl

/-- Run of `Amadeus.test` when the per-call persona load fails: the
failure propagates before any field assignment or network call. -/
theorem AmadeusTest_load_failed (apiKey : String) (fs : Option String)
    (tr : Transport) (st : ClientState) (text : String) (e : AmadeusError)
    (htext : ¬ text = "") (hload : ft_load_preprompt fs = Except.error e) :
    AmadeusTest apiKey fs tr st text = ⟨Except.error e, st, none⟩ := by
  unfold AmadeusTest
  rw [if_neg htext, hload]

/-- Run of `Amadeus.test` when the POST itself raises: the request fields
have been recorded, nothing else changed. -/
theorem AmadeusTest_exn_run (apiKey : String) (fs : Option String)
    (p : String) (st : ClientState) (text : String)
    (htext : ¬ text = "") (hload : ft_load_preprompt fs = Except.ok p) :
    AmadeusTest apiKey fs Transport.exn st text =
      ⟨Except.error (AmadeusError.transportError none),
       recordRequest apiKey (buildPayload p text) st,
       some SessionUse.moduleLevelFresh⟩ := by
  unfold AmadeusTest
  rw [if_neg htext, hload]

/-- Run of `Amadeus.test` when `raise_for_status` fires (status ≥ 400):
the request fields have been recorded, the response fields not. -/
theorem AmadeusTest_http_error_run (apiKey : String) (fs : Option String)
    (p : String) (status : Nat) (body : Option ClaudeAPIResponse)
    (st : ClientState) (text : String)
    (htext : ¬ text = "") (hload : ft_load_preprompt fs = Except.ok p)
    (hs : 400 ≤ status) :
    AmadeusTest apiKey fs (Transport.response ⟨status, body⟩) st text =
      ⟨Except.error (AmadeusError.transportError (some status)),
       recordRequest apiKey (buildPayload p text) st,
       some SessionUse.moduleLevelFresh⟩ := by
  unfold AmadeusTest
  rw [if_neg htext, hload]
  simp only [if_pos hs]

/-- Run of `Amadeus.test` when the body does not parse: `latest_response`
has been assigned by then, `latest_message_content` not. -/
theorem AmadeusTest_parse_error_run (apiKey : String) (fs : Option String)
    (p : String) (status : Nat) (st : ClientState) (text : String)
    (htext : ¬ text = "") (hload : ft_load_preprompt fs = Except.ok p)
    (hs : ¬ 400 ≤ status) :
    AmadeusTest apiKey fs (Transport.response ⟨status, none⟩) st text =
      ⟨Except.error AmadeusError.parseError,
       { recordRequest apiKey (buildPayload p text) st with
           latest_response := some ⟨status, none⟩ },
       some SessionUse.moduleLevelFresh⟩ := by
  unfold AmadeusTest
  rw [if_neg htext, hload]
  simp only [if_neg hs]

/-- Run of `Amadeus.test` when the parsed body has no content block:
`result["content"][0]` raises IndexError. -/
theorem AmadeusTest_index_error_run (apiKey : String) (fs : Option String)
    (p : String) (status : Nat) (parsed : ClaudeAPIResponse)
    (st : ClientState) (text : String)
    (htext : ¬ text = "") (hload : ft_load_preprompt fs = Except.ok p)
    (hs : ¬ 400 ≤ status) (hc : parsed.content = []) :
    AmadeusTest apiKey fs (Transport.response ⟨status, some parsed⟩) st text =
      ⟨Except.error AmadeusError.indexError,
       { recordRequest apiKey (buildPayload p text) st with
           latest_response := some ⟨status, some parsed⟩ },
       some SessionUse.moduleLevelFresh⟩ := by
  unfold AmadeusTest
  rw [if_neg htext, hload]
  simp only [if_neg hs]
  rw [hc]

/-- Run of `Amadeus.test` when the first content block text is empty: the
icontract postcondition fires, after `latest_message_content` was already
assigned. -/
theorem AmadeusTest_empty_block_run (apiKey : String) (fs : Option String)
    (p : String) (status : Nat) (parsed : ClaudeAPIResponse)
    (block : MessageContent) (rest : List MessageContent)
    (st : ClientState) (text : String)
    (htext : ¬ text = "") (hload : ft_load_preprompt fs = Except.ok p)
    (hs : ¬ 400 ≤ status) (hc : parsed.content = block :: rest)
    (hbt : block.text = "") :
    AmadeusTest apiKey fs (Transport.response ⟨status, some parsed⟩) st text =
      ⟨Except.error (AmadeusError.postconditionError "Response cannot be empty"),
       { recordRequest apiKey (buildPayload p text) st with
           latest_response := some ⟨status, some parsed⟩
           latest_message_content := some block.text },
       some SessionUse.moduleLevelFresh⟩ := by
  unfold AmadeusTest
  rw [if_neg htext, hload]
  simp only [if_neg hs]
  rw [hc]
  simp only [if_pos hbt]

/-- Successful run of `Amadeus.test`: the first content block's text is
returned and all five fields are overwritten. -/
theorem AmadeusTest_success_run (apiKey : String) (fs : Option String)
    (p : String) (status : Nat) (parsed : ClaudeAPIResponse)
    (block : MessageContent) (rest : List MessageContent)
    (st : ClientState) (text : String)
    (htext : ¬ text = "") (hload : ft_load_preprompt fs = Except.ok p)
    (hs : ¬ 400 ≤ status) (hc : parsed.content = block :: rest)
    (hbt : ¬ block.text = "") :
    AmadeusTest apiKey fs (Transport.response ⟨status, some parsed⟩) st text =
      ⟨Except.ok block.text,
       { recordRequest apiKey (buildPayload p text) st with
           latest_response := some ⟨status, some parsed⟩
           latest_message_content := some block.text },
       some SessionUse.moduleLevelFresh⟩ := by
  unfold AmadeusTest
  rw [if_neg htext, hload]
  simp only [if_neg hs]
  rw [hc]
  simp only [if_neg hbt]

/-- C2: whenever `Amadeus.test` is called with a nonempty input text and
this call's read of the persona document yields `p`, the request payload
it builds and records has exactly one message — a user turn whose content
is `p ++ "\n\n" ++ text` — with temperature 0, top_p 0.9, exactly one stop
sequence, and max_tokens 1000.  The loader runs inside every call: the
quantification over the per-call filesystem content `fs` expresses that
the recorded payload is built from this call's freshly loaded `p`,
whatever any earlier call read. -/
theorem C2_test_request_shape (apiKey : String) (fs : Option String)
    (p : String) (tr : Transport) (st : ClientState) (text : String)
    (hload : ft_load_preprompt fs = Except.ok p) (htext : ¬ text = "") :
    (AmadeusTest apiKey fs tr st text).state.latest_request_json =
      some (buildPayload p text) ∧
    (buildPayload p text).messages =
      [{ role := "user", content := p ++ "\n\n" ++ text }] ∧
    (buildPayload p text).temperature = 0 ∧
    (buildPayload p text).top_p = (9 : ℚ) / 10 ∧
    (buildPayload p text).stop_sequences.length = 1 ∧
    (buildPayload p text).max_tokens = 1000 := by
  refine ⟨?_, rfl, rfl, rfl, rfl, rfl⟩
  cases tr with
  | exn =>
      rw [AmadeusTest_exn_run apiKey fs p st text htext hload]
      rfl
  | response resp =>
      obtain ⟨status, body⟩ := resp
      by_cases hs : 400 ≤ status
      · rw [AmadeusTest_http_error_run apiKey fs p status body st text
            htext hload hs]
        rfl
      · cases body with
        | none =>
            rw [AmadeusTest_parse_error_run apiKey fs p status st text
                htext hload hs]
            rfl
        | some parsed =>
            cases hc : parsed.content with
            | nil =>
                rw [AmadeusTest_index_error_run apiKey fs p status parsed
                    st text htext hload hs hc]
                rfl
            | cons block rest =>
                by_cases hbt : block.text = ""
                · rw [AmadeusTest_empty_block_run apiKey fs p status parsed
                      block rest st text htext hload hs hc hbt]
                  rfl
                · rw [AmadeusTest_success_run apiKey fs p status parsed
                      block rest st text htext hload hs hc hbt]
                  rfl

/-- Witness for C2 at a concrete call. -/
theorem C2_witness :
    ft_load_preprompt (some personaOK) = Except.ok personaOK ∧
    ¬ ("hi" : String) = "" ∧
    ((AmadeusTest "k" (some personaOK) Transport.exn (AmadeusInit 0)
        "hi").state.latest_request_json =
      some (buildPayload personaOK "hi") ∧
    (buildPayload personaOK "hi").messages =
      [{ role := "user", content := personaOK ++ "\n\n" ++ "hi" }] ∧
    (buildPayload personaOK "hi").temperature = 0 ∧
    (buildPayload personaOK "hi").top_p = (9 : ℚ) / 10 ∧
    (buildPayload personaOK "hi").stop_sequences.length = 1 ∧
    (buildPayload personaOK "hi").max_tokens = 1000) :=
  ⟨by decide, by decide,
   C2_test_request_shape "k" (some personaOK) personaOK Transport.exn
     (AmadeusInit 0) "hi" (by decide) (by decide)⟩

/-- C4 counterexample: the claim says a failing network call leaves the
pre-call ClientState untouched.  It does not: on a fresh client (all
`latest_*` fields None), a call whose POST raises still overwrites the
three request fields, because they are assigned before the network call,
so the post-failure state differs from the pre-call state. -/
theorem C4_counterexample_state_mutated :
    (AmadeusTest "k" (some personaOK) Transport.exn (AmadeusInit 0)
        "hi").result = Except.error (AmadeusError.transportError none) ∧
    (AmadeusTest "k" (some personaOK) Transport.exn (AmadeusInit 0)
        "hi").state ≠ AmadeusInit 0 ∧
    (AmadeusTest "k" (some personaOK) Transport.exn (AmadeusInit 0)
        "hi").state.latest_request_api_url ≠
      (AmadeusInit 0).latest_request_api_url :=
  ⟨rfl, by decide, by decide⟩

/-- C4 as amended: if the network call fails or returns a non-success
status, `Amadeus.test` fails with the transport error, which propagates to
the caller with no retry; the response fields of ClientState
(`latest_response`, `latest_message_content`) keep their pre-call values,
since they are not written until after `raise_for_status` and a successful
parse; the request fields, however, have already been overwritten with
this call's values before the network call; the stored session is
untouched. -/
theorem C4_transport_failure_state (apiKey : String) (fs : Option String)
    (p : String) (tr : Transport) (st : ClientState) (text : String)
    (hload : ft_load_preprompt fs = Except.ok p) (htext : ¬ text = "")
    (hfail : tr = Transport.exn ∨
      ∃ resp, tr = Transport.response resp ∧ 400 ≤ resp.status) :
    (∃ d, (AmadeusTest apiKey fs tr st text).result =
        Except.error (AmadeusError.transportError d)) ∧
    (AmadeusTest apiKey fs tr st text).state.latest_response =
      st.latest_response ∧
    (AmadeusTest apiKey fs tr st text).state.latest_message_content =
      st.latest_message_content ∧
    (AmadeusTest apiKey fs tr st text).state.latest_request_api_url =
      some API_URL ∧
    (AmadeusTest apiKey fs tr st text).state.latest_request_headers =
      some (HEADERS apiKey) ∧
    (AmadeusTest apiKey fs tr st text).state.latest_request_json =
      some (buildPayload p text) ∧
    (AmadeusTest apiKey fs tr st text).state.http_session =
      st.http_session := by
  rcases hfail with rfl | ⟨resp, rfl, hs⟩
  · rw [AmadeusTest_exn_run apiKey fs p st text htext hload]
    exact ⟨⟨none, rfl⟩, rfl, rfl, rfl, rfl, rfl, rfl⟩
  · obtain ⟨status, body⟩ := resp
    rw [AmadeusTest_http_error_run apiKey fs p status body st text
        htext hload hs]
    exact ⟨⟨some status, rfl⟩, rfl, rfl, rfl, rfl, rfl, rfl⟩

/-- Witness for the amended C4 at a concrete failing call. -/
theorem C4_witness :
    ft_load_preprompt (some personaOK) = Except.ok personaOK ∧
    ¬ ("hi" : String) = "" ∧
    ((∃ d, (AmadeusTest "k" (some personaOK) Transport.exn (AmadeusInit 0)
        "hi").result = Except.error (AmadeusError.transportError d)) ∧
    (AmadeusTest "k" (some personaOK) Transport.exn (AmadeusInit 0)
        "hi").state.latest_response = (AmadeusInit 0).latest_response ∧
    (AmadeusTest "k" (some personaOK) Transport.exn (AmadeusInit 0)
        "hi").state.latest_message_content =
      (AmadeusInit 0).latest_message_content ∧
    (AmadeusTest "k" (some personaOK) Transport.exn (AmadeusInit 0)
        "hi").state.latest_request_api_url = some API_URL ∧
    (AmadeusTest "k" (some personaOK) Transport.exn (AmadeusInit 0)
        "hi").state.latest_request_headers = some (HEADERS "k") ∧
    (AmadeusTest "k" (some personaOK) Transport.exn (AmadeusInit 0)
        "hi").state.latest_request_json =
      some (buildPayload personaOK "hi") ∧
    (AmadeusTest "k" (some personaOK) Transport.exn (AmadeusInit 0)
        "hi").state.http_session = (AmadeusInit 0).http_session) :=
  ⟨by decide, by decide,
   C4_transport_failure_state "k" (some personaOK) personaOK Transport.exn
     (AmadeusInit 0) "hi" (by decide) (by decide) (Or.inl rfl)⟩

/-- C6: on every successful call, `Amadeus.test` returns the text of the
first content block of the parsed response, that string is nonempty (the
icontract postcondition would otherwise have failed the call), and all
five ClientState fields hold exactly this call's values — the request URL,
headers and payload, the raw response, and the extracted text — replacing
whatever any previous call stored (the resulting state does not depend on
the pre-call values of any of the five fields). -/
theorem C6_test_success_postconditions (apiKey : String) (fs : Option String)
    (tr : Transport) (st : ClientState) (text r : String)
    (h : (AmadeusTest apiKey fs tr st text).result = Except.ok r) :
    r ≠ "" ∧
    ∃ p resp block rest,
      ft_load_preprompt fs = Except.ok p ∧
      tr = Transport.response resp ∧
      Option.map ClaudeAPIResponse.content resp.body = some (block :: rest) ∧
      r = block.text ∧
      (AmadeusTest apiKey fs tr st text).state =
        { latest_request_api_url := some API_URL
          latest_request_headers := some (HEADERS apiKey)
          latest_request_json := some (buildPayload p text)
          latest_message_content := some r
          latest_response := some resp
          http_session := st.http_session } := by
  by_cases htext : text = ""
  · subst htext
    rw [AmadeusTest_empty_text] at h
    simp at h
  · cases hload : ft_load_preprompt fs with
    | error e =>
        rw [AmadeusTest_load_failed apiKey fs tr st text e htext hload] at h
        simp at h
    | ok p =>
        cases tr with
        | exn =>
            rw [AmadeusTest_exn_run apiKey fs p st text htext hload] at h
            simp at h
        | response resp =>
            obtain ⟨status, body⟩ := resp
            by_cases hs : 400 ≤ status
            · rw [AmadeusTest_http_error_run apiKey fs p status body st
                  text htext hload hs] at h
              simp at h
            · cases body with
              | none =>
                  rw [AmadeusTest_parse_error_run apiKey fs p status st
                      text htext hload hs] at h
                  simp at h
              | some parsed =>
                  cases hc : parsed.content with
                  | nil =>
                      rw [AmadeusTest_index_error_run apiKey fs p status
                          parsed st text htext hload hs hc] at h
                      simp at h
                  | cons block rest =>
                      by_cases hbt : block.text = ""
                      · rw [AmadeusTest_empty_block_run apiKey fs p status
                            parsed block rest st text htext hload hs hc
                            hbt] at h
                        simp at h
                      · rw [AmadeusTest_success_run apiKey fs p status
                            parsed block rest st text htext hload hs hc
                            hbt] at h
                        have hr : block.text = r := by simpa using h
                        subst hr
                        refine ⟨hbt, p, ⟨status, some parsed⟩, block, rest,
                          rfl, rfl, by simp [hc], rfl, ?_⟩
                        rw [AmadeusTest_success_run apiKey fs p status
                            parsed block rest st text htext hload hs hc hbt]
                        rfl

/-- Witness for C6 at a concrete successful call against the stub
response. -/
theorem C6_witness :
    (AmadeusTest "k" (some personaOK) (Transport.response okResp)
        (AmadeusInit 0) "hi").result = Except.ok FIXED_RESPONSE ∧
    (FIXED_RESPONSE ≠ "" ∧
     ∃ p resp block rest,
       ft_load_preprompt (some personaOK) = Except.ok p ∧
       Transport.response okResp = Transport.response resp ∧
       Option.map ClaudeAPIResponse.content resp.body =
         some (block :: rest) ∧
       FIXED_RESPONSE = block.text ∧
       (AmadeusTest "k" (some personaOK) (Transport.response okResp)
           (AmadeusInit 0) "hi").state =
         { latest_request_api_url := some API_URL
           latest_request_headers := some (HEADERS "k")
           latest_request_json := some (buildPayload p "hi")
           latest_message_content := some FIXED_RESPONSE
           latest_response := some resp
           http_session := (AmadeusInit 0).http_session }) :=
  ⟨by decide,
   C6_test_success_postconditions "k" (some personaOK)
     (Transport.response okResp) (AmadeusInit 0) "hi" FIXED_RESPONSE
     (by decide)⟩

/-- C7 evidence: the source line is
`response = requests.post(API_URL, headers=HEADERS, json=payload)` —
the module-level `requests.post`, which opens a fresh library-internal
session for the one call — not `self.http_session.post`, although the
constructor required and stored a session documented as being for making
HTTP requests.  So the outbound call of a successful run goes out on the
fresh-session channel, not through the supplied session; the stored
session itself is merely kept, unused and unclosed. -/
theorem C7_post_bypasses_supplied_session :
    (AmadeusTest "k" (some personaOK) (Transport.response okResp)
        (AmadeusInit 7) "hi").result = Except.ok FIXED_RESPONSE ∧
    (AmadeusTest "k" (some personaOK) (Transport.response okResp)
        (AmadeusInit 7) "hi").networkCall =
      some SessionUse.moduleLevelFresh ∧
    (AmadeusTest "k" (some personaOK) (Transport.response okResp)
        (AmadeusInit 7) "hi").networkCall ≠
      some SessionUse.suppliedSession ∧
    (AmadeusTest "k" (some personaOK) (Transport.response okResp)
        (AmadeusInit 7) "hi").state.http_session = 7 :=
  ⟨by decide, by decide, by decide, by decide⟩
